import Mathlib

/-!
Verification of the x11driver per-window adapter (`window.go`).

The development shallowly embeds `windowImpl`'s methods. Protocol requests
issued to the X server are recorded in an explicit `Request` trace; the
server's replies to the (at most one per kind per call) request/reply
exchanges of a single method invocation are supplied by a `ServerReplies`
oracle. Machine integers are modelled as `Int`/`Nat`, with the `int16`
casts of the Go code made explicit through `toInt16`.
-/

namespace X11Window

/-- X protocol error, surfaced by a checked request or a reply; modelled as
an error code. In Go a nullable `error` is `Option XError`, a `(value, error)`
reply pair is `Except XError value`. -/
abbrev XError := Nat

/-- Wire payload of a synthetic client-message event, as built by `Raise`:
`xproto.ClientMessageEvent` with a 32-bit-word data union. -/
structure ClientMessageEvent where
  format : Nat
  window : Nat
  type : Nat
  data : List Nat
deriving DecidableEq

/-- One protocol request issued over the connection, with its arguments as
encoded by `window.go` at the call site. -/
inductive Request where
  | freePicture (picture : Nat)
  | freeGC (gcontext : Nat)
  | destroyWindow (window : Nat)
  | getInputFocus
  | translateCoordinates (srcWindow dstWindow : Nat) (srcX srcY : Int)
  | warpPointer (srcWindow dstWindow : Nat) (srcX srcY : Int)
      (srcWidth srcHeight : Nat) (dstX dstY : Int)
  | changeProperty (mode window property propertyType format : Nat)
      (dataLen : Nat) (data : List Nat)
  | sendEvent (propagate : Bool) (destination : Nat) (eventMask : Nat)
      (event : ClientMessageEvent)
  | mapWindow (window : Nat)
  | changeWindowAttributes (window : Nat) (valueMask : Nat) (valueList : List Nat)
deriving DecidableEq

/-- The per-window immutable data drawn from `windowImpl` and its owning
`screenImpl` session: native handles `xw`/`xg`/`xp`, the session atoms, the
root window of `w.s.xsi`, the root of `xproto.Setup(xc).DefaultScreen(xc)`,
and the session's points-per-pixel factor. `pixelsPerPt` is a `float32` in
Go; it is only ever carried, never computed with, so it is modelled as an
exact rational. -/
structure Session where
  xw : Nat
  xg : Nat
  xp : Nat
  atomNetWMName : Nat
  atomUTF8String : Nat
  atomNetActiveWindow : Nat
  rootWindow : Nat
  defaultScreenRoot : Nat
  pixelsPerPt : ℚ

/-- The replies the server would give to each request/reply exchange a single
method invocation can perform. A method that never issues a given request
simply ignores the corresponding field. -/
structure ServerReplies where
  getInputFocus : Except XError Nat
  translateCoordinates : Except XError (Int × Int)
  warpPointerCheck : Option XError
  changePropertyCheck : Option XError
  sendEventCheck : Option XError
  mapWindowCheck : Option XError

/-- Reduction of an `Int` to the value of Go's `int16(n)` conversion
(two's-complement truncation to 16 bits). -/
def toInt16 (n : Int) : Int := (n + 32768) % 65536 - 32768

theorem toInt16_eq_self {n : Int} (h1 : -32768 ≤ n) (h2 : n < 32768) :
    toInt16 n = n := by
  unfold toInt16
  omega

theorem toInt16_idem (n : Int) : toInt16 (toInt16 n) = toInt16 n := by
  unfold toInt16
  omega

/-- Reduction of a `Nat` to the value of Go's `uint32(n)` conversion
(truncation to 32 bits). -/
def toUInt32 (n : Nat) : Nat := n % 4294967296

theorem toUInt32_eq_self {n : Nat} (h : n < 4294967296) : toUInt32 n = n :=
  Nat.mod_eq_of_lt h

/-- Constant `xproto.PropModeReplace`. -/
def propModeReplace : Nat := 0

/-- Constant `xproto.CwCursor` (bit 14 of the value mask). -/
def cwCursor : Nat := 16384

/-- Constant `xproto.TimeCurrentTime` (the zero sentinel). -/
def timeCurrentTime : Nat := 0

/-- Constant `xproto.EventMaskSubstructureRedirect` (bit 20). -/
def eventMaskSubstructureRedirect : Nat := 1048576

/-- Constant `xproto.EventMaskSubstructureNotify` (bit 19). -/
def eventMaskSubstructureNotify : Nat := 524288

/-- Embedding of `windowImpl.SetTitle`: converts the title to bytes and
issues one checked `ChangeProperty` (mode replace, format 8, the session's
`atomNetWMName` property and `atomUTF8String` type), returning the result of
`.Check()`. The Go `[]byte(title)` conversion is modelled by taking the
title's byte sequence directly; the data-length argument is
`uint32(len(buf))`, which truncates modulo 2^32, hence `toUInt32`. -/
def SetTitle (sess : Session) (srv : ServerReplies) (title : List Nat) :
    Option XError × List Request :=
  (srv.changePropertyCheck,
   [.changeProperty propModeReplace sess.xw sess.atomNetWMName sess.atomUTF8String 8
      (toUInt32 title.length) title])

/-- Embedding of `windowImpl.SetCursor`: on a cursor-cache hit, issue one
unchecked `ChangeWindowAttributes` installing the cached cursor id; on a
miss do nothing; return `nil` either way. The request is the unchecked
variant: no reply is awaited, so no `ServerReplies` field is consulted. -/
def SetCursor (sess : Session) (cursorCache : Nat → Option Nat) (cursor : Nat) :
    Option XError × List Request :=
  match cursorCache cursor with
  | some cursorId => (none, [.changeWindowAttributes sess.xw cwCursor [cursorId]])
  | none => (none, [])

/-- Embedding of `windowImpl.translateToScreen`: one
`TranslateCoordinates(w.xw, screenRoot, int16(p.X), int16(p.Y))`
request/reply round trip. The reply's `DstX`/`DstY` are `int16` on the wire,
so the oracle's values pass through `toInt16` at ingestion. -/
def translateToScreen (sess : Session) (srv : ServerReplies) (screenRoot : Nat)
    (p : Int × Int) : Except XError (Int × Int) × List Request :=
  let req := Request.translateCoordinates sess.xw screenRoot (toInt16 p.1) (toInt16 p.2)
  match srv.translateCoordinates with
  | .error e => (.error e, [req])
  | .ok r => (.ok (toInt16 r.1, toInt16 r.2), [req])

/-- Embedding of `windowImpl.WarpMouse`: query input focus (abort with the
reply error on failure; succeed without further requests when the focus is
not this window); otherwise translate `p` to the default screen's root
coordinates via `translateToScreen` (abort with the reply error on failure);
otherwise issue a checked `WarpPointer(0, screen.Root, 0, 0, 0, 0,
int16(tp.X), int16(tp.Y))` and return its `.Check()` result. -/
def WarpMouse (sess : Session) (srv : ServerReplies) (p : Int × Int) :
    Option XError × List Request :=
  match srv.getInputFocus with
  | .error e => (some e, [.getInputFocus])
  | .ok focus =>
    if focus ≠ sess.xw then (none, [.getInputFocus])
    else
      match translateToScreen sess srv sess.defaultScreenRoot p with
      | (.error e, reqs) => (some e, .getInputFocus :: reqs)
      | (.ok tp, reqs) =>
        (srv.warpPointerCheck,
         .getInputFocus ::
           (reqs ++ [.warpPointer 0 sess.defaultScreenRoot 0 0 0 0
             (toInt16 tp.1) (toInt16 tp.2)]))

/-- Embedding of `windowImpl.AbsolutePosition`: one
`TranslateCoordinates(w.xw, w.s.xsi.Root, 0, 0)` round trip; on a successful
reply return its destination coordinates, on any reply error return
`(0, 0)`. The Go signature returns a plain `(int, int)` with no error
channel. -/
def AbsolutePosition (sess : Session) (srv : ServerReplies) :
    (Int × Int) × List Request :=
  let req := Request.translateCoordinates sess.xw sess.rootWindow 0 0
  match srv.translateCoordinates with
  | .ok d => ((toInt16 d.1, toInt16 d.2), [req])
  | .error _ => ((0, 0), [req])

/-- Embedding of `windowImpl.Raise`: build the synthetic client message
(format 32, addressed to `w.xw`, type `atomNetActiveWindow`, data words
`[0, TimeCurrentTime, 0, 0, 0]`), send it checked to the default screen's
root with the substructure-redirect and substructure-notify mask, then issue
a checked `MapWindow`. Both `.Check()` results are computed by the Go code
but discarded, so the returned error is unconditionally `nil`; the unused
lets record the discarded replies. -/
def Raise (sess : Session) (srv : ServerReplies) : Option XError × List Request :=
  let ev : ClientMessageEvent :=
    { format := 32, window := sess.xw, type := sess.atomNetActiveWindow,
      data := [0, timeCurrentTime, 0, 0, 0] }
  let _discardedSendEventError := srv.sendEventCheck
  let _discardedMapWindowError := srv.mapWindowCheck
  (none,
   [.sendEvent false sess.defaultScreenRoot
      (eventMaskSubstructureRedirect ||| eventMaskSubstructureNotify) ev,
    .mapWindow sess.xw])

/-- Mutable per-window state touched by the configure handler: the
last-observed pixel dimensions (`width`/`height` fields of `windowImpl`,
Go `int`). -/
structure WindowState where
  width : Int
  height : Int
deriving DecidableEq

/-- Event directions of the external `mouse`/`key` event packages:
`DirNone`, `DirPress`, `DirRelease`, `DirStep`. -/
inductive Direction where
  | none
  | press
  | release
  | step
deriving DecidableEq

/-- Normalized size event as built by `handleConfigureNotify`
(`size.Event`). `WidthPt`/`HeightPt` are `geom.Pt` (`float32`) in Go, set by
the cast `geom.Pt(newWidth)`, which is exact for the `uint16`-ranged widths
an X configure notification can carry; they are therefore modelled as the
integers the cast denotes. -/
structure SizeEvent where
  widthPx : Int
  heightPx : Int
  widthPt : Int
  heightPt : Int
  pixelsPerPt : ℚ
deriving DecidableEq

/-- Normalized mouse event as built by `handleMouse` (`mouse.Event`). The
`X`/`Y` fields are `float32(x)` of `int16` coordinates, an exact cast, so
they are modelled as the integers; `button` is the `mouse.Button` (`int32`)
value; `modifiers` is the decoded modifier word. -/
structure MouseEvent where
  x : Int
  y : Int
  button : Int
  modifiers : Nat
  direction : Direction
deriving DecidableEq

/-- One observable action of an event-handler callback, in program order:
a `lifecycler.SetVisible` call, a `lifecycler.SendEvent` call, or a
`Deque.Send` of a normalized event. -/
inductive Action where
  | setVisible (visible : Bool)
  | lifecycleSendEvent
  | sendSize (e : SizeEvent)
  | sendMouse (e : MouseEvent)
deriving DecidableEq

/-- The size events among a trace of actions, in order. -/
def sizeEvents (acts : List Action) : List SizeEvent :=
  acts.filterMap fun a =>
    match a with
    | .sendSize e => some e
    | _ => none

/-- Raw configure notification fields used by the handler:
`xproto.ConfigureNotifyEvent` with `X`, `Y` of type `int16` and `Width`,
`Height` of type `uint16`. -/
structure ConfigureNotifyEvent where
  x : Int
  y : Int
  width : Nat
  height : Nat
deriving DecidableEq

/-- Embedding of `windowImpl.handleConfigureNotify`: first
`lifecycler.SetVisible((int(ev.X)+int(ev.Width)) > 0 &&
(int(ev.Y)+int(ev.Height)) > 0)` then `lifecycler.SendEvent`; then, only
when the notified `(width, height)` differs from the stored pair, store the
new pair and `Send` one size event built from the new dimensions and the
session's `pixelsPerPt`. -/
def handleConfigureNotify (sess : Session) (w : WindowState)
    (ev : ConfigureNotifyEvent) : WindowState × List Action :=
  let visible : Bool :=
    decide (0 < ev.x + (ev.width : Int)) && decide (0 < ev.y + (ev.height : Int))
  let newWidth : Int := (ev.width : Int)
  let newHeight : Int := (ev.height : Int)
  if w.width = newWidth ∧ w.height = newHeight then
    (w, [.setVisible visible, .lifecycleSendEvent])
  else
    ({ width := newWidth, height := newHeight },
     [.setVisible visible, .lifecycleSendEvent,
      .sendSize { widthPx := newWidth, heightPx := newHeight,
                  widthPt := newWidth, heightPt := newHeight,
                  pixelsPerPt := sess.pixelsPerPt }])

/-- Semantic wheel buttons of the external `mouse` package:
`ButtonWheelUp = -1`, `ButtonWheelDown = -2`, `ButtonWheelLeft = -3`,
`ButtonWheelRight = -4`. -/
def buttonWheelUp : Int := -1

/-- Constant `mouse.ButtonWheelDown`. -/
def buttonWheelDown : Int := -2

/-- Constant `mouse.ButtonWheelLeft`. -/
def buttonWheelLeft : Int := -3

/-- Constant `mouse.ButtonWheelRight`. -/
def buttonWheelRight : Int := -4

/-- Predicate `mouse.Button.IsWheel`: `b < 0`. -/
def isWheel (b : Int) : Bool := decide (b < 0)

/-- The `switch` of `handleMouse`: raw X button numbers 4–7 become the
semantic wheel buttons, every other raw number is used as the
`mouse.Button` value directly. -/
def mapButton (b : Nat) : Int :=
  if b = 4 then buttonWheelUp
  else if b = 5 then buttonWheelDown
  else if b = 6 then buttonWheelLeft
  else if b = 7 then buttonWheelRight
  else (b : Int)

/-- Embedding of `windowImpl.handleMouse`. The modifier decoding
(`x11key.KeyModifiers`, which lives outside this source tree) is kept
abstract as the parameter `km` applied to the raw state word. A wheel button
produces no event unless the direction is press, in which case the direction
is normalized to step; every other button event is sent through with its
direction preserved. -/
def handleMouse (km : Nat → Nat) (x y : Int) (b : Nat) (state : Nat)
    (dir : Direction) : List Action :=
  let btn := mapButton b
  if isWheel btn then
    if dir ≠ Direction.press then []
    else [.sendMouse { x := x, y := y, button := btn, modifiers := km state,
                       direction := Direction.step }]
  else
    [.sendMouse { x := x, y := y, button := btn, modifiers := km state,
                  direction := dir }]

/-- The three native-handle frees of `Release`, in program order:
`render.FreePicture(xp)`, `xproto.FreeGC(xg)`, `xproto.DestroyWindow(xw)`. -/
def freeSequence (sess : Session) : List Request :=
  [.freePicture sess.xp, .freeGC sess.xg, .destroyWindow sess.xw]

/-- Global state of `n` goroutines concurrently executing
`windowImpl.Release` on one window. Each goroutine `i` has a program
counter `pc i`: `0` before the mutex-guarded check-and-set of `released`,
`1` after it (with `won i` recording that it observed `released = false`),
`2`/`3` between the individual frees (reachable only by the goroutine that
won), and `4` once the call has returned. `trace` is the sequence of free
requests issued so far. -/
structure RelState (n : Nat) where
  released : Bool
  pc : Fin n → Nat
  won : Fin n → Bool
  trace : List Request

/-- Initial state: `released = false`, every goroutine before its lock
section, no requests issued. -/
def relInit (n : Nat) : RelState n :=
  { released := false, pc := fun _ => 0, won := fun _ => false, trace := [] }

/-- One atomic step of goroutine `i` in the `Release` interleaving
semantics. The `pc = 0` step is the whole mutex-guarded region of
`Release` (read `released`, set it to `true`), atomic because the lock
serializes it; the later steps issue the three frees one at a time, so that
other goroutines' steps may interleave between them; a goroutine that
observed `released = true` returns without issuing anything. -/
def relStep (sess : Session) (s : RelState n) (i : Fin n) : RelState n :=
  if s.pc i = 0 then
    { s with released := true,
             won := Function.update s.won i (!s.released),
             pc := Function.update s.pc i 1 }
  else if s.pc i = 1 then
    if s.won i then
      { s with pc := Function.update s.pc i 2,
               trace := s.trace ++ [.freePicture sess.xp] }
    else
      { s with pc := Function.update s.pc i 4 }
  else if s.pc i = 2 then
    { s with pc := Function.update s.pc i 3,
             trace := s.trace ++ [.freeGC sess.xg] }
  else if s.pc i = 3 then
    { s with pc := Function.update s.pc i 4,
             trace := s.trace ++ [.destroyWindow sess.xw] }
  else s

/-- Run a schedule (an interleaving, listing which goroutine takes each
step) from a state. -/
def relRun (sess : Session) (sched : List (Fin n)) (s : RelState n) : RelState n :=
  sched.foldl (relStep sess) s

/-- Reachability invariant of the `Release` interleaving semantics: either
nobody has entered the lock section (state A), or `released` is `true` and
exactly one goroutine `j` won the check-and-set, the trace is exactly the
prefix of the free sequence that `j` has issued so far, and every other
goroutine is before its lock section, inside the early-return path, or
done. -/
def relInv (sess : Session) (s : RelState n) : Prop :=
  (s.released = false ∧ s.trace = [] ∧ (∀ i, s.pc i = 0) ∧ (∀ i, s.won i = false))
  ∨ (s.released = true ∧ ∃ j, s.won j = true ∧ 1 ≤ s.pc j ∧ s.pc j ≤ 4 ∧
      s.trace = (freeSequence sess).take (s.pc j - 1) ∧
      (∀ i, i ≠ j → s.won i = false ∧ (s.pc i = 0 ∨ s.pc i = 1 ∨ s.pc i = 4)))

theorem relStep_pc_other (sess : Session) {n : Nat} (s : RelState n) {a i : Fin n}
    (hia : i ≠ a) : (relStep sess s a).pc i = s.pc i := by
  unfold relStep
  split_ifs <;> simp [Function.update_noteq hia]

theorem relStep_pc_mono (sess : Session) {n : Nat} (s : RelState n) (a i : Fin n) :
    s.pc i ≤ (relStep sess s a).pc i := by
  by_cases hia : i = a
  · subst hia
    unfold relStep
    split_ifs <;> simp_all
  · simp [relStep_pc_other sess s hia]

theorem relRun_pc_mono (sess : Session) {n : Nat} (sched : List (Fin n))
    (s : RelState n) (i : Fin n) : s.pc i ≤ (relRun sess sched s).pc i := by
  induction sched generalizing s with
  | nil => exact Nat.le_refl _
  | cons a t ih =>
    exact Nat.le_trans (relStep_pc_mono sess s a i) (ih (relStep sess s a))

theorem relStep_released_mono (sess : Session) {n : Nat} {s : RelState n} (a : Fin n)
    (h : s.released = true) : (relStep sess s a).released = true := by
  unfold relStep
  split_ifs <;> simp [h]

theorem relRun_released_mono (sess : Session) {n : Nat} (sched : List (Fin n))
    {s : RelState n} (h : s.released = true) :
    (relRun sess sched s).released = true := by
  induction sched generalizing s with
  | nil => exact h
  | cons a t ih => exact ih (relStep_released_mono sess a h)

theorem relStep_pc_self (sess : Session) {n : Nat} (s : RelState n) (i : Fin n) :
    s.pc i + 1 ≤ (relStep sess s i).pc i ∨ 4 ≤ s.pc i := by
  unfold relStep
  split_ifs <;> simp_all <;> omega

theorem relRun_pc_count (sess : Session) {n : Nat} (sched : List (Fin n))
    (s : RelState n) (i : Fin n) (h : 4 ≤ s.pc i + sched.count i) :
    4 ≤ (relRun sess sched s).pc i := by
  induction sched generalizing s with
  | nil => simpa using h
  | cons a t ih =>
    show 4 ≤ (relRun sess t (relStep sess s a)).pc i
    by_cases hai : a = i
    · subst hai
      rcases relStep_pc_self sess s a with hstep | hge
      · apply ih
        have hc : (a :: t).count a = t.count a + 1 := List.count_cons_self a t
        omega
      · have h1 := relRun_pc_mono sess t (relStep sess s a) a
        have h2 := relStep_pc_mono sess s a a
        omega
    · have hpc : (relStep sess s a).pc i = s.pc i :=
        relStep_pc_other sess s (fun hh => hai hh.symm)
      apply ih
      have hc : (a :: t).count i = t.count i :=
        List.count_cons_of_ne (fun hh => hai hh.symm) t
      omega

theorem relStep_inv (sess : Session) {n : Nat} {s : RelState n} (a : Fin n)
    (h : relInv sess s) : relInv sess (relStep sess s a) := by
  rcases h with ⟨hrel, htr, hpc, hwon⟩ | ⟨hrel, j, hwj, hpj1, hpj4, htr, hoth⟩
  · -- state A: goroutine a enters the lock section and wins
    right
    have hpa := hpc a
    refine ⟨by simp [relStep, hpa], a, by simp [relStep, hpa, hrel],
      by simp [relStep, hpa], by simp [relStep, hpa], ?_, ?_⟩
    · simp [relStep, hpa, htr]
    · intro i hia
      exact ⟨by simp [relStep, hpa, Function.update_noteq hia, hwon i],
        Or.inl (by simp [relStep, hpa, Function.update_noteq hia, hpc i])⟩
  · by_cases haj : a = j
    · -- the winner advances (or is already done)
      subst haj
      have hcase : s.pc a = 1 ∨ s.pc a = 2 ∨ s.pc a = 3 ∨ s.pc a = 4 := by omega
      have htr0 : s.trace = (freeSequence sess).take (s.pc a - 1) := htr
      rcases hcase with h1 | h2 | h3 | h4
      · right
        refine ⟨by simp [relStep, h1, hwj, hrel], a,
          by simp [relStep, h1, hwj], by simp [relStep, h1, hwj],
          by simp [relStep, h1, hwj], ?_, ?_⟩
        · have hemp : s.trace = [] := by simpa [h1] using htr0
          simp [relStep, h1, hwj, hemp, freeSequence]
        · intro i hia
          have hoi := hoth i hia
          exact ⟨by simp [relStep, h1, hwj, hoi.1],
            by simpa [relStep, h1, hwj, Function.update_noteq hia] using hoi.2⟩
      · right
        refine ⟨by simp [relStep, h2, hrel], a,
          by simp [relStep, h2, hwj], by simp [relStep, h2],
          by simp [relStep, h2], ?_, ?_⟩
        · have hone : s.trace = [Request.freePicture sess.xp] := by
            simpa [h2, freeSequence] using htr0
          simp [relStep, h2, hone, freeSequence]
        · intro i hia
          have hoi := hoth i hia
          exact ⟨by simp [relStep, h2, hoi.1],
            by simpa [relStep, h2, Function.update_noteq hia] using hoi.2⟩
      · right
        refine ⟨by simp [relStep, h3, hrel], a,
          by simp [relStep, h3, hwj], by simp [relStep, h3],
          by simp [relStep, h3], ?_, ?_⟩
        · have htwo : s.trace = [Request.freePicture sess.xp, Request.freeGC sess.xg] := by
            simpa [h3, freeSequence] using htr0
          simp [relStep, h3, htwo, freeSequence]
        · intro i hia
          have hoi := hoth i hia
          exact ⟨by simp [relStep, h3, hoi.1],
            by simpa [relStep, h3, Function.update_noteq hia] using hoi.2⟩
      · have hsame : relStep sess s a = s := by simp [relStep, h4]
        rw [hsame]
        exact Or.inr ⟨hrel, a, hwj, hpj1, hpj4, htr, hoth⟩
    · -- a non-winner takes a step
      have hja : j ≠ a := fun hh => haj hh.symm
      rcases hoth a haj with ⟨hwa, hpa014⟩
      rcases hpa014 with h0 | h1 | h4
      · right
        refine ⟨by simp [relStep, h0], j,
          by simp [relStep, h0, Function.update_noteq hja, hwj],
          by simpa [relStep, h0, Function.update_noteq hja] using hpj1,
          by simpa [relStep, h0, Function.update_noteq hja] using hpj4, ?_, ?_⟩
        · simpa [relStep, h0, Function.update_noteq hja] using htr
        · intro i hij
          by_cases hia : i = a
          · subst hia
            exact ⟨by simp [relStep, h0, hrel],
              Or.inr (Or.inl (by simp [relStep, h0]))⟩
          · have hoi := hoth i hij
            exact ⟨by simpa [relStep, h0, Function.update_noteq hia] using hoi.1,
              by simpa [relStep, h0, Function.update_noteq hia] using hoi.2⟩
      · right
        refine ⟨by simp [relStep, h1, hwa, hrel], j,
          by simp [relStep, h1, hwa, hwj],
          by simpa [relStep, h1, hwa, Function.update_noteq hja] using hpj1,
          by simpa [relStep, h1, hwa, Function.update_noteq hja] using hpj4, ?_, ?_⟩
        · simpa [relStep, h1, hwa, Function.update_noteq hja] using htr
        · intro i hij
          by_cases hia : i = a
          · subst hia
            exact ⟨by simp [relStep, h1, hwa],
              Or.inr (Or.inr (by simp [relStep, h1, hwa]))⟩
          · have hoi := hoth i hij
            exact ⟨by simpa [relStep, h1, hwa] using hoi.1,
              by simpa [relStep, h1, hwa, Function.update_noteq hia] using hoi.2⟩
      · have hsame : relStep sess s a = s := by simp [relStep, h4]
        rw [hsame]
        exact Or.inr ⟨hrel, j, hwj, hpj1, hpj4, htr, hoth⟩

theorem relRun_inv (sess : Session) {n : Nat} (sched : List (Fin n)) {s : RelState n}
    (h : relInv sess s) : relInv sess (relRun sess sched s) := by
  induction sched generalizing s with
  | nil => exact h
  | cons a t ih => exact ih (relStep_inv sess a h)

/-- Concrete session used by witnesses and counterexamples. -/
def cSession : Session :=
  { xw := 1, xg := 2, xp := 3, atomNetWMName := 10, atomUTF8String := 11,
    atomNetActiveWindow := 12, rootWindow := 4, defaultScreenRoot := 5,
    pixelsPerPt := 2 }

/-- Claim C1: for every sequence of N ≥ 1 `Release` calls on the same
window, sequential or concurrent (any interleaving `sched` in which each of
the `n` calling goroutines gets enough steps to return), the trace of
native-handle frees is exactly `FreePicture`, then `FreeGC`, then
`DestroyWindow` — each performed exactly once in total, so every call after
the first frees nothing — and the `released` flag starts `false`, ends
`true`, and once `true` stays `true` along the whole run (it transitions
false→true exactly once). -/
theorem C1_release_idempotent (sess : Session) (n : Nat) (hn : 1 ≤ n)
    (sched : List (Fin n)) (hcomplete : ∀ i : Fin n, 4 ≤ sched.count i) :
    (relRun sess sched (relInit n)).trace = freeSequence sess
    ∧ (relInit n).released = false
    ∧ (relRun sess sched (relInit n)).released = true
    ∧ (∀ p q : Nat, p ≤ q →
        (relRun sess (sched.take p) (relInit n)).released = true →
        (relRun sess (sched.take q) (relInit n)).released = true) := by
  have hinv0 : relInv sess (relInit n) :=
    Or.inl ⟨rfl, rfl, fun _ => rfl, fun _ => rfl⟩
  have hinv := relRun_inv sess sched hinv0
  have hp4 : ∀ i : Fin n, 4 ≤ (relRun sess sched (relInit n)).pc i := fun i =>
    relRun_pc_count sess sched (relInit n) i (by simpa [relInit] using hcomplete i)
  have hmono : ∀ p q : Nat, p ≤ q →
      (relRun sess (sched.take p) (relInit n)).released = true →
      (relRun sess (sched.take q) (relInit n)).released = true := by
    intro p q hpq hrp
    have hsplit : sched.take q = sched.take p ++ (sched.take q).drop p := by
      conv_lhs => rw [← List.take_append_drop p (sched.take q)]
      rw [List.take_take, Nat.min_eq_left hpq]
    rw [hsplit, relRun, List.foldl_append]
    exact relRun_released_mono sess ((sched.take q).drop p) hrp
  rcases hinv with ⟨hrel, htr, hpc, hwon⟩ | ⟨hrel, j, hwj, hpj1, hpj4, htr, hoth⟩
  · exact absurd (hpc ⟨0, hn⟩) (by have := hp4 ⟨0, hn⟩; omega)
  · have hpj : (relRun sess sched (relInit n)).pc j = 4 := le_antisymm hpj4 (hp4 j)
    refine ⟨?_, rfl, hrel, hmono⟩
    rw [htr, hpj]
    simp [freeSequence]

/-- Witness for C1: one goroutine, four steps; the trace is exactly the
ordered free sequence. -/
theorem C1_release_idempotent_witness :
    (relRun cSession [0, 0, 0, 0] (relInit 1)).trace = freeSequence cSession :=
  (C1_release_idempotent cSession 1 (by decide) [0, 0, 0, 0] (by decide)).1

/-- Claim C2: a configure notification enqueues a size event iff its
(width, height) differs from the stored pair; when it differs, exactly one
size event carrying the new pixel dimensions and the session's
points-per-pixel factor is enqueued and the stored pair is updated; when it
is equal, no size event is enqueued and the state is unchanged. -/
theorem C2_size_event_iff (sess : Session) (w : WindowState)
    (ev : ConfigureNotifyEvent) :
    if w.width = (ev.width : Int) ∧ w.height = (ev.height : Int) then
      sizeEvents (handleConfigureNotify sess w ev).2 = []
      ∧ (handleConfigureNotify sess w ev).1 = w
    else
      sizeEvents (handleConfigureNotify sess w ev).2 =
        [{ widthPx := (ev.width : Int), heightPx := (ev.height : Int),
           widthPt := (ev.width : Int), heightPt := (ev.height : Int),
           pixelsPerPt := sess.pixelsPerPt }]
      ∧ (handleConfigureNotify sess w ev).1 =
          { width := (ev.width : Int), height := (ev.height : Int) } := by
  by_cases h : w.width = (ev.width : Int) ∧ w.height = (ev.height : Int)
  · rw [if_pos h]
    constructor <;> simp [handleConfigureNotify, sizeEvents, h]
  · rw [if_neg h]
    constructor <;> simp [handleConfigureNotify, sizeEvents, h]

/-- Claim C4: on every configure notification — also one with unchanged
dimensions — the handler's first action is `SetVisible` applied to the
boolean `x+width > 0 && y+height > 0` computed from the notification, and
its second action is the lifecycle event-emission request; the visibility
update therefore precedes the emission request. -/
theorem C4_visibility_before_send (sess : Session) (w : WindowState)
    (ev : ConfigureNotifyEvent) :
    ∃ rest, (handleConfigureNotify sess w ev).2 =
      Action.setVisible
          (decide (0 < ev.x + (ev.width : Int)) && decide (0 < ev.y + (ev.height : Int)))
        :: Action.lifecycleSendEvent :: rest := by
  by_cases h : w.width = (ev.width : Int) ∧ w.height = (ev.height : Int)
  · exact ⟨[], by simp [handleConfigureNotify, h]⟩
  · exact ⟨[Action.sendSize
      { widthPx := (ev.width : Int), heightPx := (ev.height : Int),
        widthPt := (ev.width : Int), heightPt := (ev.height : Int),
        pixelsPerPt := sess.pixelsPerPt }], by simp [handleConfigureNotify, h]⟩

/-- Claim C9: every size event the configure handler enqueues has its point
dimensions numerically equal to its pixel dimensions (the `geom.Pt` cast of
the same integers, exact in the `uint16` range), for every value of the
session's points-per-pixel factor, which is carried in the event but never
applied to the conversion. -/
theorem C9_pt_equals_px (sess : Session) (w : WindowState)
    (ev : ConfigureNotifyEvent) (hw : ev.width < 65536) (hh : ev.height < 65536) :
    ∀ e ∈ sizeEvents (handleConfigureNotify sess w ev).2,
      e.widthPt = e.widthPx ∧ e.heightPt = e.heightPx
      ∧ e.pixelsPerPt = sess.pixelsPerPt := by
  intro e he
  by_cases h : w.width = (ev.width : Int) ∧ w.height = (ev.height : Int)
  · simp [handleConfigureNotify, sizeEvents, h] at he
  · simp [handleConfigureNotify, sizeEvents, h] at he
    subst he
    exact ⟨rfl, rfl, rfl⟩

/-- The size event of C9's witness run: a configure notification resizing a
fresh window to 800×600 under scale factor 2. -/
def cSizeEvent : SizeEvent :=
  { widthPx := 800, heightPx := 600, widthPt := 800, heightPt := 600,
    pixelsPerPt := 2 }

/-- Witness for C9 at the 800×600 notification. -/
theorem C9_pt_equals_px_witness :
    cSizeEvent.widthPt = cSizeEvent.widthPx ∧ cSizeEvent.heightPt = cSizeEvent.heightPx
    ∧ cSizeEvent.pixelsPerPt = cSession.pixelsPerPt :=
  C9_pt_equals_px cSession ⟨0, 0⟩ ⟨0, 0, 800, 600⟩ (by decide) (by decide) cSizeEvent
    (by simp [handleConfigureNotify, sizeEvents, cSession, cSizeEvent])

/-- Claim C3: raw buttons 4–7 map to wheel up, down, left, right; a wheel
button with direction other than press produces no event; a wheel press
produces exactly one mouse event with direction step; every non-wheel
button produces exactly one mouse event with the raw direction
preserved. -/
theorem C3_wheel_remap (km : Nat → Nat) (x y : Int) (b : Nat) (st : Nat)
    (dir : Direction) :
    mapButton 4 = buttonWheelUp ∧ mapButton 5 = buttonWheelDown
    ∧ mapButton 6 = buttonWheelLeft ∧ mapButton 7 = buttonWheelRight
    ∧ ((b = 4 ∨ b = 5 ∨ b = 6 ∨ b = 7) → dir ≠ Direction.press →
        handleMouse km x y b st dir = [])
    ∧ ((b = 4 ∨ b = 5 ∨ b = 6 ∨ b = 7) →
        handleMouse km x y b st Direction.press =
          [Action.sendMouse { x := x, y := y, button := mapButton b,
                              modifiers := km st, direction := Direction.step }])
    ∧ (¬(b = 4 ∨ b = 5 ∨ b = 6 ∨ b = 7) →
        handleMouse km x y b st dir =
          [Action.sendMouse { x := x, y := y, button := mapButton b,
                              modifiers := km st, direction := dir }]) := by
  refine ⟨rfl, rfl, rfl, rfl, ?_, ?_, ?_⟩
  · intro hb hd
    rcases hb with rfl | rfl | rfl | rfl <;>
      simp [handleMouse, mapButton, isWheel, buttonWheelUp, buttonWheelDown,
        buttonWheelLeft, buttonWheelRight, hd]
  · intro hb
    rcases hb with rfl | rfl | rfl | rfl <;>
      simp [handleMouse, mapButton, isWheel, buttonWheelUp, buttonWheelDown,
        buttonWheelLeft, buttonWheelRight]
  · intro hb
    push_neg at hb
    have hmap : mapButton b = (b : Int) := by
      simp [mapButton, hb.1, hb.2.1, hb.2.2.1, hb.2.2.2]
    have hnw : isWheel (mapButton b) = false := by
      rw [hmap]
      simp [isWheel]
    simp [handleMouse, hnw]

/-- Witness for C3: a button-5 press becomes exactly one wheel-down step
event. -/
theorem C3_wheel_remap_witness :
    handleMouse id 10 20 5 0 Direction.press =
      [Action.sendMouse { x := 10, y := 20, button := buttonWheelDown,
                          modifiers := 0, direction := Direction.step }] := by
  have h := (C3_wheel_remap id 10 20 5 0 Direction.press).2.2.2.2.2.1
    (Or.inr (Or.inl rfl))
  simpa [mapButton] using h

/-- Claim C5: `WarpMouse(p)` returns success and issues no pointer-warp
request when the focus reply names another window; returns the reply error
and issues no pointer-warp request when the focus query or the coordinate
translation fails; and otherwise issues one checked pointer warp to the
translated absolute coordinates and returns that request's result. The
trace of each branch is given exactly, so the absence of a warp request in
the first three branches is explicit. -/
theorem C5_warp_mouse (sess : Session) (srv : ServerReplies) (p : Int × Int) :
    (∀ f, srv.getInputFocus = .ok f → f ≠ sess.xw →
      WarpMouse sess srv p = (none, [.getInputFocus]))
    ∧ (∀ e, srv.getInputFocus = .error e →
      WarpMouse sess srv p = (some e, [.getInputFocus]))
    ∧ (∀ e, srv.getInputFocus = .ok sess.xw → srv.translateCoordinates = .error e →
      WarpMouse sess srv p = (some e,
        [.getInputFocus,
         .translateCoordinates sess.xw sess.defaultScreenRoot (toInt16 p.1) (toInt16 p.2)]))
    ∧ (∀ d, srv.getInputFocus = .ok sess.xw → srv.translateCoordinates = .ok d →
      WarpMouse sess srv p = (srv.warpPointerCheck,
        [.getInputFocus,
         .translateCoordinates sess.xw sess.defaultScreenRoot (toInt16 p.1) (toInt16 p.2),
         .warpPointer 0 sess.defaultScreenRoot 0 0 0 0 (toInt16 d.1) (toInt16 d.2)])) := by
  refine ⟨?_, ?_, ?_, ?_⟩
  · intro f hf hne
    simp [WarpMouse, hf, hne]
  · intro e he
    simp [WarpMouse, he]
  · intro e hf ht
    simp [WarpMouse, translateToScreen, hf, ht]
  · intro d hf ht
    simp [WarpMouse, translateToScreen, hf, ht, toInt16_idem]

/-- Server oracle whose focus reply names a window other than `cSession`'s. -/
def cServerUnfocused : ServerReplies :=
  { getInputFocus := .ok 99, translateCoordinates := .ok (7, 8),
    warpPointerCheck := none, changePropertyCheck := none,
    sendEventCheck := none, mapWindowCheck := none }

/-- Witness for C5: warp on an unfocused window is a successful no-op. -/
theorem C5_warp_mouse_witness :
    WarpMouse cSession cServerUnfocused (6, 6) = (none, [.getInputFocus]) :=
  (C5_warp_mouse cSession cServerUnfocused (6, 6)).1 99 rfl (by decide)

/-- Claim C6: `AbsolutePosition` returns the reply's destination
coordinates when the coordinate-translation reply succeeds (the reply's
values are `int16` on the wire, hence the range premises) and `(0, 0)` when
it fails; its Go signature has no error channel, so the error cannot
propagate, and the trace is the single translate request either way. -/
theorem C6_absolute_position (sess : Session) (srv : ServerReplies) :
    (∀ d, srv.translateCoordinates = .ok d →
      -32768 ≤ d.1 → d.1 < 32768 → -32768 ≤ d.2 → d.2 < 32768 →
      AbsolutePosition sess srv =
        ((d.1, d.2), [.translateCoordinates sess.xw sess.rootWindow 0 0]))
    ∧ (∀ e, srv.translateCoordinates = .error e →
      AbsolutePosition sess srv =
        ((0, 0), [.translateCoordinates sess.xw sess.rootWindow 0 0])) := by
  constructor
  · intro d hd h1 h2 h3 h4
    simp [AbsolutePosition, hd, toInt16_eq_self h1 h2, toInt16_eq_self h3 h4]
  · intro e he
    simp [AbsolutePosition, he]

/-- Server oracle whose coordinate-translation reply fails. -/
def cServerTranslateFails : ServerReplies :=
  { getInputFocus := .ok 1, translateCoordinates := .error 5,
    warpPointerCheck := none, changePropertyCheck := none,
    sendEventCheck := none, mapWindowCheck := none }

/-- Witness for C6: a failed translation yields `(0, 0)`. -/
theorem C6_absolute_position_witness :
    AbsolutePosition cSession cServerTranslateFails =
      ((0, 0), [.translateCoordinates cSession.xw cSession.rootWindow 0 0]) :=
  (C6_absolute_position cSession cServerTranslateFails).2 5 rfl

/-- Server oracle that rejects the client-message send with error 3. -/
def cServerSendRejected : ServerReplies :=
  { getInputFocus := .ok 1, translateCoordinates := .ok (0, 0),
    warpPointerCheck := none, changePropertyCheck := none,
    sendEventCheck := some 3, mapWindowCheck := none }

/-- Claim C7 counterexample: with the server rejecting the client-message
send (check result `some 3`), the claim demands `Raise` return that
failure, but the code returns `nil`: both `.Check()` results are discarded
and `Raise` returns success unconditionally. -/
theorem C7_counterexample :
    cServerSendRejected.sendEventCheck = some 3
    ∧ (Raise cSession cServerSendRejected).1 = none
    ∧ (Raise cSession cServerSendRejected).1 ≠ cServerSendRejected.sendEventCheck := by
  exact ⟨rfl, rfl, by decide⟩

/-- Claim C7 as amended: `Raise` returns success on every invocation — its
result does not depend on the server's replies at all, even when the
synthetic client-message send is rejected — while issuing the checked
client-message send (to the default screen's root, with the
substructure-redirect and substructure-notify mask) followed by the checked
map-window request, both of whose results are discarded. -/
theorem C7_raise_always_succeeds (sess : Session) (srv srv2 : ServerReplies) :
    (Raise sess srv).1 = none
    ∧ Raise sess srv = Raise sess srv2
    ∧ (Raise sess srv).2 =
        [.sendEvent false sess.defaultScreenRoot
           (eventMaskSubstructureRedirect ||| eventMaskSubstructureNotify)
           { format := 32, window := sess.xw, type := sess.atomNetActiveWindow,
             data := [0, timeCurrentTime, 0, 0, 0] },
         .mapWindow sess.xw] :=
  ⟨rfl, rfl, rfl⟩

/-- Claim C8: `SetTitle(t)` issues exactly one checked property-change
request whose payload is the byte encoding of `t`, using the session's
window-title property atom and UTF-8 string-type atom (mode replace, format
8, data length `uint32(|t|)` — i.e. `|t|` truncated modulo 2^32, which is
`|t|` itself whenever the title is shorter than 2^32 bytes), and its result
is exactly the server's check result: the server's error when the request
fails, success otherwise. -/
theorem C8_set_title (sess : Session) (srv : ServerReplies) (title : List Nat) :
    (SetTitle sess srv title).2 =
      [.changeProperty propModeReplace sess.xw sess.atomNetWMName sess.atomUTF8String 8
        (toUInt32 title.length) title]
    ∧ (title.length < 4294967296 →
        (SetTitle sess srv title).2 =
          [.changeProperty propModeReplace sess.xw sess.atomNetWMName sess.atomUTF8String 8
            title.length title])
    ∧ (SetTitle sess srv title).1 = srv.changePropertyCheck := by
  refine ⟨rfl, ?_, rfl⟩
  intro hlen
  simp [SetTitle, toUInt32_eq_self hlen]

/-- Witness for C8: a seven-byte title ("Example" in UTF-8) is sent as-is
with data length 7. -/
theorem C8_set_title_witness :
    (SetTitle cSession cServerUnfocused [69, 120, 97, 109, 112, 108, 101]).2 =
      [.changeProperty propModeReplace cSession.xw cSession.atomNetWMName
        cSession.atomUTF8String 8 7 [69, 120, 97, 109, 112, 108, 101]] := by
  have h := (C8_set_title cSession cServerUnfocused
    [69, 120, 97, 109, 112, 108, 101]).2.1 (by decide)
  simpa using h

/-- Claim C10: `SetCursor` returns `nil` for every cursor token, on cache
hit and miss alike; on a hit the single attribute-change request is the
unchecked variant (the embedding consults no server reply, so a
server-side failure can never reach the caller), on a miss no request is
issued. -/
theorem C10_set_cursor (sess : Session) (cursorCache : Nat → Option Nat)
    (cursor : Nat) :
    (SetCursor sess cursorCache cursor).1 = none
    ∧ (∀ cid, cursorCache cursor = some cid →
        (SetCursor sess cursorCache cursor).2 =
          [.changeWindowAttributes sess.xw cwCursor [cid]])
    ∧ (cursorCache cursor = none → (SetCursor sess cursorCache cursor).2 = []) := by
  refine ⟨?_, ?_, ?_⟩
  · cases hc : cursorCache cursor <;> simp [SetCursor, hc]
  · intro cid hcid
    simp [SetCursor, hcid]
  · intro hnone
    simp [SetCursor, hnone]

/-- Witness for C10: a cache hit installs the cached cursor id and returns
success. -/
theorem C10_set_cursor_witness :
    (SetCursor cSession (fun _ => some 42) 0).2 =
      [.changeWindowAttributes cSession.xw cwCursor [42]] :=
  (C10_set_cursor cSession (fun _ => some 42) 0).2.1 42 rfl

end X11Window
